import Mathlib

/-!
Shallow embedding of the workflow / taxonomy state machine and the
code-generation request builder of `src/index.tsx` (the `App` component of
the Stata topic-coding assistant).

Modelling conventions:
* React `useState` fields become fields of an explicit `AppState` record;
  each event handler becomes a pure function `AppState → … → AppState`.
* The two external collaborator calls (`ai.models.generateContent`) are
  modelled by an explicit outcome parameter: either the awaited promise
  throws (transport / parse error) or it returns a response value.  The
  handler body is then replayed atomically on that outcome, which matches
  the single-threaded cooperative scheduling of the source.
* `alert(...)` calls are recorded in an `alerts` list so that "the failure
  is surfaced to the operator" is a statement about the model.
* JavaScript truthiness is modelled explicitly where the source relies on
  it: `response.text || "{}"` treats the empty string like an absent text,
  `data.variables` is truthy for any present array (also the empty one),
  and `variables.find(...)?.name || "y"` falls back both when no variable
  is found and when the found name is the empty string.
-/

/-- The `role` field of `VariableDef` in `src/index.tsx`
(the union of the six role tags Y, X, Control, Mechanism, Hetero, FixedEffect). -/
inductive Role where
  | Y
  | X
  | Control
  | Mechanism
  | Hetero
  | FixedEffect
deriving DecidableEq, Repr

/-- `interface VariableDef` of `src/index.tsx`. -/
structure VariableDef where
  name : String
  label : String
  role : Role
deriving DecidableEq, Repr

/-- `interface CodeSection` of `src/index.tsx`. -/
structure CodeSection where
  title : String
  code : String
  explanation : String
deriving DecidableEq, Repr

/-- The five analysis-category ids (`basic, benchmark, robust, endo, hetero`),
the keys of `analysisMethods` and `generatedContent` in `src/index.tsx`. -/
inductive Category where
  | basic
  | benchmark
  | robust
  | endo
  | hetero
deriving DecidableEq, Repr

/-- The wizard step (`useState<1 | 2 | 3>(1)`): 1 = topic intake,
2 = variable review, 3 = workbench. -/
inductive Step where
  | topicIntake
  | variableReview
  | workbench
deriving DecidableEq, Repr

/-- The `generatedContent` record of `src/index.tsx`:
one `CodeSection[]` per category. -/
structure GenStore where
  basic : List CodeSection
  benchmark : List CodeSection
  robust : List CodeSection
  endo : List CodeSection
  hetero : List CodeSection
deriving DecidableEq, Repr

/-- Reading `generatedContent[cat]`. -/
def GenStore.get (g : GenStore) : Category → List CodeSection
  | Category.basic => g.basic
  | Category.benchmark => g.benchmark
  | Category.robust => g.robust
  | Category.endo => g.endo
  | Category.hetero => g.hetero

/-- The spread update `{...prev, [cat]: l}` on `generatedContent`. -/
def GenStore.setCat (g : GenStore) (c : Category) (l : List CodeSection) : GenStore :=
  match c with
  | Category.basic => { g with basic := l }
  | Category.benchmark => { g with benchmark := l }
  | Category.robust => { g with robust := l }
  | Category.endo => { g with endo := l }
  | Category.hetero => { g with hetero := l }

/-- The empty store `{basic: [], benchmark: [], robust: [], endo: [], hetero: []}`. -/
def GenStore.empty : GenStore :=
  { basic := [], benchmark := [], robust := [], endo := [], hetero := [] }

/-- The mutable state of the `App` component (`useState` hooks of
`src/index.tsx`), plus the list of `alert(...)` messages shown so far.
`apiKey = ""` models an absent `process.env.API_KEY`. -/
structure AppState where
  apiKey : String
  step : Step
  loading : Bool
  topic : String
  field : String
  controlCount : Nat
  heteroCount : Nat
  mechCount : Nat
  feCount : Nat
  vars : List VariableDef
  activeTab : Category
  generatedContent : GenStore
  alerts : List String
deriving DecidableEq, Repr

/-- The initial state of the `App` component: the `useState` defaults of
`src/index.tsx` lines 110-126. -/
def initialState (apiKey : String) : AppState :=
  { apiKey := apiKey
    step := Step.topicIntake
    loading := false
    topic := ""
    field := "发展经济学 (Development Economics)"
    controlCount := 4
    heteroCount := 1
    mechCount := 1
    feCount := 2
    vars := []
    activeTab := Category.basic
    generatedContent := GenStore.empty
    alerts := [] }

/-- Outcome of the awaited variable-suggestion call in `fetchVariables`.
`throw` covers a rejected promise as well as a `JSON.parse` failure (both
land in the same `catch`).  `response vars?` is a completed exchange whose
parsed JSON object has (`some vs`) or lacks (`none`) a `variables` field;
an empty or absent `response.text` parses as `"{}"` and therefore yields
`none`.  A present field is assumed to match the declared response schema
(an array of `{name, label, role}`), as the source does. -/
inductive FetchOutcome where
  | throw
  | response (vars? : Option (List VariableDef))
deriving DecidableEq, Repr

/-- Outcome of the awaited code-generation call in `generateStataCode`.
`throw` is a rejected promise; `response text` is a completed call whose
`response.text` is `text` (an absent text is modelled as `""`). -/
inductive GenOutcome where
  | throw
  | response (text : String)
deriving DecidableEq, Repr

/-- JavaScript `opt?.name || dflt`: the default is used both when the
option is `none` (no variable found) and when the found string is empty
(empty string is falsy). -/
def jsOrDefault (o : Option String) (dflt : String) : String :=
  match o with
  | none => dflt
  | some s => if s == "" then dflt else s

/-- The reference `variables.find(v => v.role === Y)?.name || "y"` (line 271). -/
def yRef (vars : List VariableDef) : String :=
  jsOrDefault ((vars.find? (fun v => v.role == Role.Y)).map VariableDef.name) "y"

/-- The reference `variables.find(v => v.role === X)?.name || "x"` (line 272). -/
def xRef (vars : List VariableDef) : String :=
  jsOrDefault ((vars.find? (fun v => v.role == Role.X)).map VariableDef.name) "x"

/-- `variables.filter(v => v.role === r).map(v => v.name).join(" ")`
(lines 273-276). -/
def roleJoin (r : Role) (vars : List VariableDef) : String :=
  String.intercalate " " ((vars.filter (fun v => v.role == r)).map VariableDef.name)

/-- `controls` of line 273. -/
def controlsRef (vars : List VariableDef) : String := roleJoin Role.Control vars

/-- `mechs` of line 274. -/
def mechsRef (vars : List VariableDef) : String := roleJoin Role.Mechanism vars

/-- `heteros` of line 275. -/
def heterosRef (vars : List VariableDef) : String := roleJoin Role.Hetero vars

/-- `fes` of line 276. -/
def fesRef (vars : List VariableDef) : String := roleJoin Role.FixedEffect vars

/-- Text of the suggestion prompt before the topic (line 211). -/
def fp1 : String := "\n        研究主题: "

/-- Suggestion prompt between topic and field (line 212). -/
def fp2 : String := "\n        研究领域: "

/-- Suggestion prompt between field and the control count (lines 213-220). -/
def fp3 : String := "\n\n        请作为一名资深经济学家，为该主题的 Stata 实证分析建议相关变量。\n        请返回一个包含变量列表的 JSON 对象。\n        \n        规则:\n        1. 建议 1 个主要被解释变量 (Y)。\n        2. 建议 1 个主要核心解释变量 (X)。\n        3. 建议 "

/-- Suggestion prompt between the control and mechanism counts (lines 220-221). -/
def fp4 : String := " 个控制变量 (Control)。\n        4. 建议 "

/-- Suggestion prompt between the mechanism and hetero counts (lines 221-222). -/
def fp5 : String := " 个机制变量 (Mechanism)。\n        5. 建议 "

/-- Suggestion prompt between the hetero and fixed-effect counts (lines 222-223). -/
def fp6 : String := " 个异质性分组变量 (Hetero)。\n        6. 建议 "

/-- Tail of the suggestion prompt (lines 223-226). -/
def fp7 : String := " 个固定效应变量 (FixedEffect) (例如: Year, Industry, City)。\n        7. 变量名 (name) 必须符合 Stata 格式 (小写英文，无空格，如 \x27gdp_growth\x27, \x27digital_idx\x27)。\n        8. 变量标签 (label) 请使用中文描述该变量的含义。\n      "

/-- The variable-suggestion request text of `fetchVariables`
(template literal, src/index.tsx lines 210-226). -/
def buildFetchPrompt (s : AppState) : String :=
  fp1 ++ s.topic ++ fp2 ++ s.field ++ fp3 ++ toString s.controlCount ++ fp4 ++
    toString s.mechCount ++ fp5 ++ toString s.heteroCount ++ fp6 ++
    toString s.feCount ++ fp7

/-- Code-generation prompt up to the topic (lines 279-281). -/
def gp1 : String := "\n      你是一名精通 Stata 19 的经济学专家。\n      \n      研究主题: "

/-- Generation prompt between topic and the Y reference (lines 282-284). -/
def gp2 : String := "\n      \n      变量定义:\n      - 被解释变量 (Y): "

/-- Generation prompt between the Y and X references (line 285). -/
def gp3 : String := "\n      - 核心解释变量 (X): "

/-- Generation prompt before the controls reference (line 286). -/
def gp4 : String := "\n      - 控制变量: "

/-- Generation prompt before the mechanisms reference (line 287). -/
def gp5 : String := "\n      - 机制变量: "

/-- Generation prompt before the heterogeneity reference (line 288). -/
def gp6 : String := "\n      - 异质性变量: "

/-- Generation prompt before the fixed-effects reference: the
fixed-effects slot label of the request payload (line 289). -/
def gp7 : String := "\n      - 固定效应变量 (Fixed Effects): "

/-- Generation prompt between the fixed-effects reference and the method
name (lines 290-291). -/
def gp8 : String := "\n\n      任务: 请编写用于 "

/-- Generation prompt between method name and subtype (line 291). -/
def gp9 : String := " ("

/-- Generation prompt between the subtype and the second fixed-effects
reference in the `absorb` constraint (lines 291-297). -/
def gp10 : String := ") 的 Stata 代码。\n      \n      关键要求:\n      1. **假设数据已经导入并清洗完毕**：绝对不要生成 \x27clear\x27, \x27set obs\x27, \x27gen x = rnormal()\x27 或任何生成虚拟数据的代码。\n      2. **直接写分析命令**：直接从数据声明或 global 定义开始，然后写 estimation commands。\n      3. 必须使用上面提供的确切变量名。\n      4. 如果是回归分析 (reghdfe/xtreg)，请正确使用固定效应变量 (absorb "

/-- Tail of the generation prompt (lines 297-303). -/
def gp11 : String := ")。\n      5. 使用标准的计量经济学命令 (如 reghdfe, ivreg2, esttab, sum, sgmediation 等)。\n      6. 代码中必须包含清晰的中文注释 (以 * 开头)，解释每一步的经济学含义。\n      7. 如果是回归分析，请包含 \x27esttab\x27 或 \x27outreg2\x27 命令来导出结果。\n      8. 仅返回纯文本代码，不要包含 markdown 的反引号。\n      9. 如果涉及\"安慰剂检验\"，请提供 permutation 代码框架或随机化处理变量的循环代码框架，不要生成假数据，而是对现有数据进行随机操作。\n    "

/-- The code-generation request payload of `generateStataCode`
(template literal, src/index.tsx lines 278-303), built from the topic,
the canonical variable references and the selected method. -/
def buildGenPrompt (topic : String) (vars : List VariableDef) (method subType : String) : String :=
  gp1 ++ topic ++ gp2 ++ yRef vars ++ gp3 ++ xRef vars ++ gp4 ++ controlsRef vars ++
    gp5 ++ mechsRef vars ++ gp6 ++ heterosRef vars ++ gp7 ++ fesRef vars ++
    gp8 ++ method ++ gp9 ++ subType ++ gp10 ++ fesRef vars ++ gp11

/-- The request payload `generateStataCode` sends from state `s` for a
chosen method (name and `cmd` hint). -/
def generateRequest (s : AppState) (method subType : String) : String :=
  buildGenPrompt s.topic s.vars method subType

/-- `fetchVariables` (src/index.tsx lines 205-264), replayed atomically on
the outcome `o` of the awaited suggestion call.  Returns the new state and
whether a call was dispatched at all (`false` when the `!topic || !apiKey`
guard returns early, before `setLoading(true)`).  On a thrown error the
`catch` block alerts `变量生成失败，请重试。`; the `finally` block clears
`loading` on every dispatched path.  The parsed response advances to step 2
iff its `variables` field is present (`if (data.variables)` — JavaScript
truthiness, satisfied also by an empty array). -/
def fetchVariables (s : AppState) (o : FetchOutcome) : AppState × Bool :=
  if s.topic == "" || s.apiKey == "" then (s, false)
  else
    let s1 := { s with loading := true }
    match o with
    | FetchOutcome.throw =>
        ({ s1 with alerts := s1.alerts ++ ["变量生成失败，请重试。"], loading := false }, true)
    | FetchOutcome.response vars? =>
        match vars? with
        | some vs =>
            ({ s1 with vars := vs, step := Step.variableReview, loading := false }, true)
        | none => ({ s1 with loading := false }, true)

/-- `generateStataCode` (src/index.tsx lines 267-329), replayed atomically
on the outcome `o` of the awaited generation call.  On success the returned
text (even the empty string — the source never checks it) is wrapped as a
`CodeSection` and prepended to `generatedContent[activeTab]`.  On a thrown
error the `catch` block only does `console.error(e)` — no alert, no state
change.  The `finally` block clears `loading` on both paths. -/
def generateStataCode (s : AppState) (method subType : String) (o : GenOutcome) : AppState :=
  let s1 := { s with loading := true }
  match o with
  | GenOutcome.throw => { s1 with loading := false }
  | GenOutcome.response text =>
      let newSection : CodeSection :=
        { title := method, code := text, explanation := "Generated code for " ++ method ++ "." }
      { s1 with
        generatedContent :=
          s1.generatedContent.setCat s1.activeTab
            (newSection :: s1.generatedContent.get s1.activeTab)
        loading := false }

/-- The name-input `onChange` handler of step 2 (src/index.tsx lines
521-531): copy the array, locate the edited variable (the source uses
reference equality `item === v`, which resolves to the index `i` that the
edited variable occupies in `variables`), and overwrite its `name` in place. -/
def renameVar (vars : List VariableDef) (i : Nat) (newName : String) : List VariableDef :=
  match vars[i]? with
  | none => vars
  | some v => vars.set i { v with name := newName }

/-- The label-input `onChange` handler of step 2 (src/index.tsx lines
534-544), analogous to `renameVar` but overwriting `label`. -/
def relabelVar (vars : List VariableDef) (i : Nat) (newLabel : String) : List VariableDef :=
  match vars[i]? with
  | none => vars
  | some v => vars.set i { v with label := newLabel }

/-- The step-2 `返回修改` button (src/index.tsx line 557): `setStep(1)`.
Nothing else is touched — in particular the taxonomy is retained. -/
def returnToTopic (s : AppState) : AppState :=
  { s with step := Step.topicIntake }

/-- The step-2 `初始化 Stata 环境` button (src/index.tsx line 563):
`setStep(3)`. -/
def confirmTaxonomy (s : AppState) : AppState :=
  { s with step := Step.workbench }

/-- Whether the step-1 suggestion button can be clicked: it is rendered
only in step 1 and carries `disabled={!topic || loading}`
(src/index.tsx line 468). -/
def fetchButtonEnabled (s : AppState) : Bool :=
  s.step == Step.topicIntake && !(s.topic == "") && !s.loading

/-- Whether a step-3 method button can be clicked: the buttons are
rendered in step 3 and carry no `disabled` attribute at all
(src/index.tsx lines 642-652), so they are clickable regardless of
`loading`. -/
def methodButtonEnabled (s : AppState) : Bool :=
  s.step == Step.workbench

/-- One user-visible transition of the `App` component.  Each constructor
is one event handler of `src/index.tsx`, guarded by the step in which its
control is rendered.  `allowBack` selects whether the step-2 `返回修改`
button is part of the system (`UIStep true` is the full application;
`UIStep false` is the fragment without the return action, used to state
which invariants that single action breaks). -/
inductive UIStep (allowBack : Bool) : AppState → AppState → Prop where
  | editTopic (s : AppState) (t : String) :
      s.step = Step.topicIntake → UIStep allowBack s { s with topic := t }
  | editField (s : AppState) (f : String) :
      s.step = Step.topicIntake → UIStep allowBack s { s with field := f }
  | editControlCount (s : AppState) (n : Nat) :
      s.step = Step.topicIntake → UIStep allowBack s { s with controlCount := n }
  | editFeCount (s : AppState) (n : Nat) :
      s.step = Step.topicIntake → UIStep allowBack s { s with feCount := n }
  | editMechCount (s : AppState) (n : Nat) :
      s.step = Step.topicIntake → UIStep allowBack s { s with mechCount := n }
  | editHeteroCount (s : AppState) (n : Nat) :
      s.step = Step.topicIntake → UIStep allowBack s { s with heteroCount := n }
  | fetch (s : AppState) (o : FetchOutcome) :
      fetchButtonEnabled s = true → UIStep allowBack s (fetchVariables s o).1
  | rename (s : AppState) (i : Nat) (n : String) :
      s.step = Step.variableReview → UIStep allowBack s { s with vars := renameVar s.vars i n }
  | relabel (s : AppState) (i : Nat) (l : String) :
      s.step = Step.variableReview → UIStep allowBack s { s with vars := relabelVar s.vars i l }
  | back (s : AppState) :
      allowBack = true → s.step = Step.variableReview → UIStep allowBack s (returnToTopic s)
  | confirm (s : AppState) :
      s.step = Step.variableReview → UIStep allowBack s (confirmTaxonomy s)
  | selectTab (s : AppState) (c : Category) :
      s.step = Step.workbench → UIStep allowBack s { s with activeTab := c }
  | generate (s : AppState) (m st : String) (o : GenOutcome) :
      s.step = Step.workbench → UIStep allowBack s (generateStataCode s m st o)

/-- States of the full application reachable from the initial render. -/
def Reachable (apiKey : String) (s : AppState) : Prop :=
  Relation.ReflTransGen (UIStep true) (initialState apiKey) s

/-- Case split on a suggestion exchange: either it advanced to step 2
(successful dispatch with a present `variables` field), or it left both
the step and the taxonomy untouched. -/
theorem fetchVariables_step_cases (s : AppState) (o : FetchOutcome) :
    ((fetchVariables s o).1.step = Step.variableReview ∧
      (s.topic == "" || s.apiKey == "") = false ∧
      ∃ vs, o = FetchOutcome.response (some vs) ∧ (fetchVariables s o).1.vars = vs) ∨
    ((fetchVariables s o).1.step = s.step ∧ (fetchVariables s o).1.vars = s.vars) := by
  unfold fetchVariables
  by_cases hg : (s.topic == "" || s.apiKey == "") = true
  · right
    simp [hg]
  · have hg2 : (s.topic == "" || s.apiKey == "") = false := by
      cases h2 : (s.topic == "" || s.apiKey == "") with
      | false => rfl
      | true => exact absurd h2 hg
    cases o with
    | throw => right; simp [hg2]
    | response vars? =>
        cases vars? with
        | none => right; simp [hg2]
        | some vs => left; simp [hg2]

/-- Every transition except the step-2 return button preserves the
invariant "in step 1 the taxonomy is empty". -/
theorem uistep_no_back_preserves (s s2 : AppState) (h : UIStep false s s2)
    (hs : s.step = Step.topicIntake → s.vars = []) :
    s2.step = Step.topicIntake → s2.vars = [] := by
  cases h with
  | editTopic t hstep => intro _; exact hs hstep
  | editField f hstep => intro _; exact hs hstep
  | editControlCount n hstep => intro _; exact hs hstep
  | editFeCount n hstep => intro _; exact hs hstep
  | editMechCount n hstep => intro _; exact hs hstep
  | editHeteroCount n hstep => intro _; exact hs hstep
  | fetch o hen =>
      rcases fetchVariables_step_cases s o with ⟨h1, _, _⟩ | ⟨h1, h2⟩
      · intro h3
        rw [h1] at h3
        exact Step.noConfusion h3
      · intro h3
        rw [h1] at h3
        rw [h2]
        exact hs h3
  | rename i n hstep =>
      intro h3
      have h4 : s.step = Step.topicIntake := h3
      rw [hstep] at h4
      exact Step.noConfusion h4
  | relabel i l hstep =>
      intro h3
      have h4 : s.step = Step.topicIntake := h3
      rw [hstep] at h4
      exact Step.noConfusion h4
  | back hab hstep => exact Bool.noConfusion hab
  | confirm hstep =>
      intro h3
      have h4 : Step.workbench = Step.topicIntake := h3
      exact Step.noConfusion h4
  | selectTab c hstep =>
      intro h3
      have h4 : s.step = Step.topicIntake := h3
      rw [hstep] at h4
      exact Step.noConfusion h4
  | generate m st o hstep =>
      intro h3
      have h4 : s.step = Step.topicIntake := by
        cases o with
        | throw => exact h3
        | response text => exact h3
      rw [hstep] at h4
      exact Step.noConfusion h4

/-- A step-1 state with a topic entered (used to exercise `fetchVariables`
at a concrete input). -/
def c1state : AppState := { initialState "key" with topic := "碳排放" }

/-- Claim C1, counterexample: a successful suggestion exchange whose
parsed response carries a present but empty `variables` array advances the
stage to step 2 anyway — `if (data.variables)` is satisfied by `[]`. -/
theorem c1_empty_list_advances :
    (fetchVariables c1state (FetchOutcome.response (some []))).1.step = Step.variableReview ∧
    (fetchVariables c1state (FetchOutcome.response (some []))).1.vars = [] := by
  decide

/-- Claim C1 (amended): a suggestion exchange started in step 1 advances
to step 2 exactly when it was actually dispatched (non-empty topic and
key) and the parsed response contains a `variables` field — present but
possibly empty; on a thrown error or a response without that field the
stage stays at step 1 and the taxonomy is untouched. -/
theorem c1_stage_advance (s : AppState) (o : FetchOutcome)
    (hstep : s.step = Step.topicIntake) :
    ((fetchVariables s o).1.step = Step.variableReview ↔
      (s.topic == "" || s.apiKey == "") = false ∧
        ∃ vs, o = FetchOutcome.response (some vs)) ∧
    ((fetchVariables s o).1.step = Step.topicIntake →
      (fetchVariables s o).1.vars = s.vars) := by
  constructor
  · constructor
    · intro h
      rcases fetchVariables_step_cases s o with ⟨h1, hg, vs, ho, h2⟩ | ⟨h1, h2⟩
      · exact ⟨hg, vs, ho⟩
      · rw [h1, hstep] at h
        exact Step.noConfusion h
    · rintro ⟨hg, vs, rfl⟩
      unfold fetchVariables
      simp [hg]
  · intro h
    rcases fetchVariables_step_cases s o with ⟨h1, hg, vs, ho, h2⟩ | ⟨h1, h2⟩
    · rw [h1] at h
      exact Step.noConfusion h
    · exact h2

/-- Witness for `c1_stage_advance` at a concrete state and outcome. -/
theorem c1_stage_advance_witness :
    (fetchVariables c1state (FetchOutcome.response (some []))).1.step = Step.variableReview :=
  (c1_stage_advance c1state (FetchOutcome.response (some [])) rfl).1.mpr
    ⟨by decide, [], rfl⟩

/-- A concrete suggested variable for the C2 run. -/
def c2Var : VariableDef := { name := "gdp", label := "国内生产总值", role := Role.Y }

/-- Step 1 with the topic entered. -/
def c2s1 : AppState := { initialState "key" with topic := "碳排放" }

/-- After a successful suggestion exchange: step 2, one variable. -/
def c2s2 : AppState := (fetchVariables c2s1 (FetchOutcome.response (some [c2Var]))).1

/-- After pressing the step-2 return button: back in step 1. -/
def c2s3 : AppState := returnToTopic c2s2

/-- Claim C2, counterexample: the return button runs `setStep(1)` only, so
the taxonomy survives into step 1 — a reachable state with
`stage = TopicIntake` and a non-empty variable sequence. -/
theorem c2_topicintake_nonempty_vars :
    Reachable "key" c2s3 ∧ c2s3.step = Step.topicIntake ∧ c2s3.vars ≠ [] := by
  refine ⟨?_, by decide, by decide⟩
  have h1 : UIStep true (initialState "key") c2s1 :=
    UIStep.editTopic (initialState "key") "碳排放" rfl
  have h2 : UIStep true c2s1 c2s2 :=
    UIStep.fetch c2s1 (FetchOutcome.response (some [c2Var])) (by decide)
  have h3 : UIStep true c2s2 c2s3 :=
    UIStep.back c2s2 rfl (by decide)
  exact Relation.ReflTransGen.head h1
    (Relation.ReflTransGen.head h2 (Relation.ReflTransGen.single h3))

/-- Claim C2 (amended): the invariant "while `stage = TopicIntake` the
variable sequence is empty" holds in every state reachable without the
step-2 return action; the return action itself re-enters step 1 with the
taxonomy retained (not cleared), which is exactly how the invariant can be
broken. -/
theorem c2_invariant_without_back (apiKey : String) (s : AppState)
    (h : Relation.ReflTransGen (UIStep false) (initialState apiKey) s) :
    (s.step = Step.topicIntake → s.vars = []) ∧
    (returnToTopic s).step = Step.topicIntake ∧ (returnToTopic s).vars = s.vars := by
  refine ⟨?_, rfl, rfl⟩
  induction h with
  | refl => intro _; rfl
  | tail hab hbc ih => exact uistep_no_back_preserves _ _ hbc ih

/-- Witness for `c2_invariant_without_back` at the initial state. -/
theorem c2_invariant_without_back_witness :
    (initialState "key").vars = [] ∧
    (returnToTopic (initialState "key")).vars = [] :=
  ⟨(c2_invariant_without_back "key" (initialState "key") Relation.ReflTransGen.refl).1 rfl,
   ((c2_invariant_without_back "key" (initialState "key") Relation.ReflTransGen.refl).2.2).trans
     ((c2_invariant_without_back "key" (initialState "key") Relation.ReflTransGen.refl).1 rfl)⟩

/-- Updating a category and reading it back gives the new list. -/
theorem GenStore.get_setCat_same (g : GenStore) (c : Category) (l : List CodeSection) :
    (g.setCat c l).get c = l := by
  cases c <;> rfl

/-- Updating one category leaves the list of every other category unchanged. -/
theorem GenStore.get_setCat_other (g : GenStore) (c c2 : Category) (l : List CodeSection)
    (h : c2 ≠ c) : (g.setCat c l).get c2 = g.get c2 := by
  cases c <;> cases c2 <;> first | rfl | exact absurd rfl h

/-- A workbench state used to exercise `generateStataCode` for C3. -/
def c3state : AppState :=
  { initialState "key" with step := Step.workbench, topic := "数字经济" }

/-- Claim C3, counterexample: a completed generation call with empty
returned text is not treated as a failure — a section with empty code is
stored — and a thrown generation error produces no user-visible notice
(the `catch` only logs). -/
theorem c3_empty_text_stored_and_silent_error :
    (generateStataCode c3state "m" "c" (GenOutcome.response "")).generatedContent.basic =
      [{ title := "m", code := "", explanation := "Generated code for m." }] ∧
    (generateStataCode c3state "m" "c" GenOutcome.throw).alerts = [] := by
  decide

/-- Claim C3 (amended): on a thrown (transport) error no section is
appended to any category, but the failure is only logged, not surfaced as
a user-visible notice; a completed call is treated as success even when
the returned text is empty, prepending a section whose code is empty. -/
theorem c3_generation_failure_handling (s : AppState) (m st : String) (c : Category) :
    (generateStataCode s m st GenOutcome.throw).generatedContent.get c =
      s.generatedContent.get c ∧
    (generateStataCode s m st GenOutcome.throw).alerts = s.alerts ∧
    (generateStataCode s m st (GenOutcome.response "")).generatedContent.get s.activeTab =
      { title := m, code := "", explanation := "Generated code for " ++ m ++ "." } ::
        s.generatedContent.get s.activeTab := by
  refine ⟨rfl, rfl, ?_⟩
  exact GenStore.get_setCat_same s.generatedContent s.activeTab _

/-- A workbench state used to exercise `generateStataCode` for C4. -/
def c4state : AppState :=
  { initialState "key" with step := Step.workbench, topic := "绿色金融" }

/-- Claim C4, counterexample: an empty generation response — a
`CodeGenerationFailure` in the error taxonomy of the spec — leaves the
per-category store changed, not "exactly what it was before the operation
started" (the busy indicator is cleared, though). -/
theorem c4_empty_response_mutates_store :
    (generateStataCode c4state "m" "c" (GenOutcome.response "")).generatedContent ≠
      c4state.generatedContent ∧
    (generateStataCode c4state "m" "c" (GenOutcome.response "")).loading = false := by
  decide

/-- Claim C4 (amended): the busy indicator is false after every completed
operation (for suggestions, after every dispatched call; a guard-rejected
call never sets it), and on thrown errors stage, taxonomy, topic, role
configuration and store are all unchanged.  Only thrown errors have this
frame property: an empty generation response is treated as success and
mutates the store. -/
theorem c4_cleanup_and_error_frame (s : AppState) (o : FetchOutcome)
    (m st : String) (go : GenOutcome) :
    ((fetchVariables s o).2 = true → (fetchVariables s o).1.loading = false) ∧
    (generateStataCode s m st go).loading = false ∧
    ((fetchVariables s FetchOutcome.throw).1.step = s.step ∧
      (fetchVariables s FetchOutcome.throw).1.vars = s.vars ∧
      (fetchVariables s FetchOutcome.throw).1.topic = s.topic ∧
      (fetchVariables s FetchOutcome.throw).1.controlCount = s.controlCount ∧
      (fetchVariables s FetchOutcome.throw).1.feCount = s.feCount ∧
      (fetchVariables s FetchOutcome.throw).1.mechCount = s.mechCount ∧
      (fetchVariables s FetchOutcome.throw).1.heteroCount = s.heteroCount ∧
      (fetchVariables s FetchOutcome.throw).1.generatedContent = s.generatedContent) ∧
    ((generateStataCode s m st GenOutcome.throw).step = s.step ∧
      (generateStataCode s m st GenOutcome.throw).vars = s.vars ∧
      (generateStataCode s m st GenOutcome.throw).topic = s.topic ∧
      (generateStataCode s m st GenOutcome.throw).controlCount = s.controlCount ∧
      (generateStataCode s m st GenOutcome.throw).feCount = s.feCount ∧
      (generateStataCode s m st GenOutcome.throw).mechCount = s.mechCount ∧
      (generateStataCode s m st GenOutcome.throw).heteroCount = s.heteroCount ∧
      (generateStataCode s m st GenOutcome.throw).generatedContent = s.generatedContent) := by
  refine ⟨?_, ?_, ?_, ?_⟩
  · cases hg : (s.topic == "" || s.apiKey == "") with
    | true => simp [fetchVariables, hg]
    | false =>
        cases o with
        | throw => simp [fetchVariables, hg]
        | response vars? => cases vars? <;> simp [fetchVariables, hg]
  · cases go <;> rfl
  · cases hg : (s.topic == "" || s.apiKey == "") with
    | true => simp [fetchVariables, hg]
    | false => simp [fetchVariables, hg]
  · exact ⟨rfl, rfl, rfl, rfl, rfl, rfl, rfl, rfl⟩

/-- Witness for `c4_cleanup_and_error_frame`: the dispatched-call
hypothesis discharged at a concrete state. -/
theorem c4_cleanup_and_error_frame_witness :
    (fetchVariables c4state FetchOutcome.throw).1.loading = false :=
  (c4_cleanup_and_error_frame c4state FetchOutcome.throw "m" "c" GenOutcome.throw).1
    (by decide)

/-- A workbench state with the shared busy indicator set, for C5. -/
def c5state : AppState :=
  { initialState "key" with step := Step.workbench, topic := "对外贸易", loading := true }

/-- Claim C5, counterexample: while the (single, shared) busy indicator is
true, a generation call can still be issued — the method buttons carry no
`disabled` attribute — and it completes and mutates the store. -/
theorem c5_generation_not_gated :
    c5state.loading = true ∧ methodButtonEnabled c5state = true ∧
    (generateStataCode c5state "m" "c" (GenOutcome.response "t")).generatedContent ≠
      c5state.generatedContent := by
  decide

/-- Claim C5 (amended): there is one shared busy indicator, not one per
call kind.  The suggestion button is gated on it (clickable only in step 1
with a non-empty topic while the shared indicator is false), while the
generation buttons are not gated by any indicator — their availability is
insensitive to `loading`. -/
theorem c5_shared_indicator_gating (s : AppState) :
    (fetchButtonEnabled s = true →
      s.loading = false ∧ ¬ s.topic = "" ∧ s.step = Step.topicIntake) ∧
    methodButtonEnabled { s with loading := true } = methodButtonEnabled s := by
  constructor
  · intro h
    simp only [fetchButtonEnabled, Bool.and_eq_true, Bool.not_eq_true', beq_iff_eq,
      beq_eq_false_iff_ne] at h
    exact ⟨h.2, h.1.2, h.1.1⟩
  · rfl

/-- Witness for `c5_shared_indicator_gating` at a concrete enabled state. -/
theorem c5_shared_indicator_gating_witness :
    ({ initialState "key" with topic := "碳中和" } : AppState).loading = false :=
  ((c5_shared_indicator_gating { initialState "key" with topic := "碳中和" }).1
    (by decide)).1

/-- Claim C6: the canonical references embedded in a code-generation
request.  Under the identifier constraint of the data model (names are
non-empty lowercase tokens), `y` is the name of the first Y variable with
fallback `"y"` when no Y variable exists, `x` analogously; each role list
is the space-join of the names of its members in taxonomy order, empty when the
role has no members; and with fixed-effect variables named `year` and
`city` (in that order) the request payload contains `year city` right
after the fixed-effects slot label. -/
theorem c6_canonical_references (vars : List VariableDef) (topic method subType : String)
    (hname : ∀ v ∈ vars, v.name ≠ "") :
    yRef vars = ((vars.find? (fun v => v.role == Role.Y)).map VariableDef.name).getD "y" ∧
    xRef vars = ((vars.find? (fun v => v.role == Role.X)).map VariableDef.name).getD "x" ∧
    (∀ r : Role, roleJoin r vars =
      String.intercalate " " ((vars.filter (fun v => v.role == r)).map VariableDef.name)) ∧
    (∀ r : Role, vars.filter (fun v => v.role == r) = [] → roleJoin r vars = "") ∧
    ((vars.filter (fun v => v.role == Role.FixedEffect)).map VariableDef.name = ["year", "city"] →
      ∃ pre post, buildGenPrompt topic vars method subType =
        pre ++ "\n      - 固定效应变量 (Fixed Effects): " ++ ("year city" ++ post)) := by
  refine ⟨?_, ?_, fun r => rfl, fun r hr => ?_, fun hfe => ?_⟩
  · cases hf : vars.find? (fun v => v.role == Role.Y) with
    | none => simp [yRef, jsOrDefault, hf]
    | some v =>
        have hne : v.name ≠ "" := hname v (List.mem_of_find?_eq_some hf)
        have hb : (v.name == "") = false := beq_eq_false_iff_ne.mpr hne
        simp [yRef, jsOrDefault, hf, hb]
  · cases hf : vars.find? (fun v => v.role == Role.X) with
    | none => simp [xRef, jsOrDefault, hf]
    | some v =>
        have hne : v.name ≠ "" := hname v (List.mem_of_find?_eq_some hf)
        have hb : (v.name == "") = false := beq_eq_false_iff_ne.mpr hne
        simp [xRef, jsOrDefault, hf, hb]
  · unfold roleJoin
    rw [hr]
    rfl
  · have hfes : fesRef vars = "year city" := by
      unfold fesRef roleJoin
      rw [hfe]
      rfl
    refine ⟨gp1 ++ topic ++ gp2 ++ yRef vars ++ gp3 ++ xRef vars ++ gp4 ++ controlsRef vars ++
        gp5 ++ mechsRef vars ++ gp6 ++ heterosRef vars,
      gp8 ++ method ++ gp9 ++ subType ++ gp10 ++ fesRef vars ++ gp11, ?_⟩
    simp only [buildGenPrompt, gp7, hfes, String.append_assoc]

/-- The taxonomy used to instantiate C6 concretely. -/
def c6vars : List VariableDef :=
  [ { name := "carbon", label := "碳排放强度", role := Role.Y },
    { name := "digital", label := "数字经济指数", role := Role.X },
    { name := "year", label := "年份", role := Role.FixedEffect },
    { name := "city", label := "城市", role := Role.FixedEffect } ]

/-- Witness for `c6_canonical_references`: concrete taxonomy with
fixed-effect names `year`, `city`. -/
theorem c6_canonical_references_witness :
    yRef c6vars = "carbon" ∧
    ∃ pre post, buildGenPrompt "碳排放研究" c6vars "双向固定效应 (Two-way FE)" "reghdfe" =
      pre ++ "\n      - 固定效应变量 (Fixed Effects): " ++ ("year city" ++ post) := by
  have h := c6_canonical_references c6vars "碳排放研究" "双向固定效应 (Two-way FE)" "reghdfe"
    (by decide)
  exact ⟨h.1.trans (by decide), h.2.2.2.2 (by decide)⟩

/-- On a completed generation call the new section is prepended to the
active category, and the active category itself is unchanged. -/
theorem generateStataCode_success_store (s : AppState) (m st t : String) :
    (generateStataCode s m st (GenOutcome.response t)).generatedContent.get s.activeTab =
      { title := m, code := t, explanation := "Generated code for " ++ m ++ "." } ::
        s.generatedContent.get s.activeTab ∧
    (generateStataCode s m st (GenOutcome.response t)).activeTab = s.activeTab :=
  ⟨GenStore.get_setCat_same _ _ _, rfl⟩

/-- Claim C7: every successful generation call wraps the returned text as
`CodeSection {title = method, code = text, explanation = derived caption}`
and prepends it to the list of the active category; two successive successful
calls therefore grow that list by exactly two independent entries, newest
at index 0, with the previous entries all retained. -/
theorem c7_prepend_newest_first (s : AppState) (m1 st1 t1 m2 st2 t2 : String) :
    ((generateStataCode s m1 st1 (GenOutcome.response t1)).generatedContent.get s.activeTab =
      { title := m1, code := t1, explanation := "Generated code for " ++ m1 ++ "." } ::
        s.generatedContent.get s.activeTab) ∧
    ((generateStataCode (generateStataCode s m1 st1 (GenOutcome.response t1)) m2 st2
        (GenOutcome.response t2)).generatedContent.get s.activeTab =
      { title := m2, code := t2, explanation := "Generated code for " ++ m2 ++ "." } ::
        { title := m1, code := t1, explanation := "Generated code for " ++ m1 ++ "." } ::
          s.generatedContent.get s.activeTab) ∧
    ((generateStataCode (generateStataCode s m1 st1 (GenOutcome.response t1)) m2 st2
        (GenOutcome.response t2)).generatedContent.get s.activeTab).length =
      (s.generatedContent.get s.activeTab).length + 2 := by
  have hA := generateStataCode_success_store s m1 st1 t1
  have hB := generateStataCode_success_store (generateStataCode s m1 st1 (GenOutcome.response t1))
    m2 st2 t2
  have h2 : (generateStataCode (generateStataCode s m1 st1 (GenOutcome.response t1)) m2 st2
      (GenOutcome.response t2)).generatedContent.get s.activeTab =
      { title := m2, code := t2, explanation := "Generated code for " ++ m2 ++ "." } ::
        { title := m1, code := t1, explanation := "Generated code for " ++ m1 ++ "." } ::
          s.generatedContent.get s.activeTab := by
    have hB1 := hB.1
    rw [hA.2] at hB1
    rw [hB1, hA.1]
  refine ⟨hA.1, h2, ?_⟩
  rw [h2]
  simp

/-- Overwriting an entry of a list with the value it already holds is the
identity. -/
theorem setSelfId {α : Type} (l : List α) (i : Nat) (h : i < l.length) :
    l.set i l[i] = l := by
  apply List.ext_getElem?
  intro j
  by_cases hij : i = j
  · subst hij
    simp [List.getElem?_set_self, h]
  · exact List.getElem?_set_ne hij

/-- Mapping a function that does not distinguish the new entry from the
old one erases an update. -/
theorem mapSetSame {β : Type} (l : List VariableDef) (i : Nat) (h : i < l.length)
    (w : VariableDef) (f : VariableDef → β) (hf : f w = f l[i]) :
    (l.set i w).map f = l.map f := by
  rw [List.map_set, hf]
  have h2 : i < (l.map f).length := by simpa using h
  have h3 : f l[i] = (l.map f)[i] := by
    rw [List.getElem_map]
  rw [h3]
  exact setSelfId (l.map f) i h2

/-- An update at position `i` does not change the first `i` elements. -/
theorem takeSetSame {α : Type} (l : List α) (i : Nat) (a : α) :
    (l.set i a).take i = l.take i := by
  rw [List.set_take]
  exact List.set_eq_of_length_le (List.length_take_le i l)

/-- With `i` in range, `renameVar` is an update at position `i` that only
replaces the name. -/
theorem renameVar_eq_set (vars : List VariableDef) (i : Nat) (nm : String)
    (h : i < vars.length) :
    renameVar vars i nm = vars.set i { vars[i] with name := nm } := by
  unfold renameVar
  rw [List.getElem?_eq_getElem h]

/-- With `i` in range, `relabelVar` is an update at position `i` that only
replaces the label. -/
theorem relabelVar_eq_set (vars : List VariableDef) (i : Nat) (lb : String)
    (h : i < vars.length) :
    relabelVar vars i lb = vars.set i { vars[i] with label := lb } := by
  unfold relabelVar
  rw [List.getElem?_eq_getElem h]

/-- Claim C8: renaming or relabeling a taxonomy variable is an in-place
update: the sequence keeps its length, every other position is unchanged,
the roles of all positions (hence the role of the edited variable) are
unchanged, the other text field is unchanged, and for every role the
number of same-role predecessors of the edited position — its position
inside its role bucket — is unchanged. -/
theorem c8_edit_in_place (vars : List VariableDef) (i : Nat) (nm lb : String)
    (h : i < vars.length) :
    (renameVar vars i nm).length = vars.length ∧
    (∀ j, j ≠ i → (renameVar vars i nm)[j]? = vars[j]?) ∧
    (renameVar vars i nm).map VariableDef.role = vars.map VariableDef.role ∧
    (renameVar vars i nm).map VariableDef.label = vars.map VariableDef.label ∧
    (∀ r : Role, (((renameVar vars i nm).take i).filter (fun v => v.role == r)).length =
      ((vars.take i).filter (fun v => v.role == r)).length) ∧
    (relabelVar vars i lb).length = vars.length ∧
    (∀ j, j ≠ i → (relabelVar vars i lb)[j]? = vars[j]?) ∧
    (relabelVar vars i lb).map VariableDef.role = vars.map VariableDef.role ∧
    (relabelVar vars i lb).map VariableDef.name = vars.map VariableDef.name ∧
    (∀ r : Role, (((relabelVar vars i lb).take i).filter (fun v => v.role == r)).length =
      ((vars.take i).filter (fun v => v.role == r)).length) := by
  rw [renameVar_eq_set vars i nm h, relabelVar_eq_set vars i lb h]
  refine ⟨List.length_set .., fun j hj => List.getElem?_set_ne (Ne.symm hj), ?_, ?_, ?_,
    List.length_set .., fun j hj => List.getElem?_set_ne (Ne.symm hj), ?_, ?_, ?_⟩
  · exact mapSetSame vars i h _ VariableDef.role rfl
  · exact mapSetSame vars i h _ VariableDef.label rfl
  · intro r
    rw [takeSetSame]
  · exact mapSetSame vars i h _ VariableDef.role rfl
  · exact mapSetSame vars i h _ VariableDef.name rfl
  · intro r
    rw [takeSetSame]

/-- Witness for `c8_edit_in_place` on a concrete two-variable taxonomy. -/
theorem c8_edit_in_place_witness :
    (renameVar [ ⟨"gdp", "产出", Role.Y⟩, ⟨"fdi", "外资", Role.X⟩ ] 0 "gdp2").map
        VariableDef.role = [Role.Y, Role.X] :=
  ((c8_edit_in_place [ ⟨"gdp", "产出", Role.Y⟩, ⟨"fdi", "外资", Role.X⟩ ] 0 "gdp2" "改名"
    (by decide)).2.2.1).trans (by decide)

/-- Claim C9: calling the suggestion action with an empty topic dispatches
no external call and leaves the state — in particular the stage and the
taxonomy — exactly as it was. -/
theorem c9_empty_topic_noop (s : AppState) (o : FetchOutcome) (h : s.topic = "") :
    fetchVariables s o = (s, false) := by
  unfold fetchVariables
  have hg : (s.topic == "" || s.apiKey == "") = true := by
    simp [h]
  simp [hg]

/-- Witness for `c9_empty_topic_noop` at the initial state. -/
theorem c9_empty_topic_noop_witness :
    fetchVariables (initialState "key") FetchOutcome.throw = (initialState "key", false) :=
  c9_empty_topic_noop (initialState "key") FetchOutcome.throw rfl

/-- Claim C10: a successful generation call only prepends to the active
category: the stored list of every other category, the stage, topic, field,
role configuration, taxonomy and active tab are all unchanged. -/
theorem c10_success_frame (s : AppState) (m st t : String) :
    (∀ c : Category, c ≠ s.activeTab →
      (generateStataCode s m st (GenOutcome.response t)).generatedContent.get c =
        s.generatedContent.get c) ∧
    (generateStataCode s m st (GenOutcome.response t)).step = s.step ∧
    (generateStataCode s m st (GenOutcome.response t)).topic = s.topic ∧
    (generateStataCode s m st (GenOutcome.response t)).field = s.field ∧
    (generateStataCode s m st (GenOutcome.response t)).controlCount = s.controlCount ∧
    (generateStataCode s m st (GenOutcome.response t)).feCount = s.feCount ∧
    (generateStataCode s m st (GenOutcome.response t)).mechCount = s.mechCount ∧
    (generateStataCode s m st (GenOutcome.response t)).heteroCount = s.heteroCount ∧
    (generateStataCode s m st (GenOutcome.response t)).vars = s.vars ∧
    (generateStataCode s m st (GenOutcome.response t)).activeTab = s.activeTab :=
  ⟨fun c hc => GenStore.get_setCat_other _ _ _ _ hc, rfl, rfl, rfl, rfl, rfl, rfl, rfl, rfl, rfl⟩

/-- A workbench state used to instantiate C10. -/
def c10state : AppState :=
  { initialState "key" with step := Step.workbench, topic := "环境规制" }

/-- Witness for `c10_success_frame`: the non-active `endo` list is
untouched by a successful generation on the active `basic` tab. -/
theorem c10_success_frame_witness :
    (generateStataCode c10state "m" "c" (GenOutcome.response "reg y x")).generatedContent.get
      Category.endo = c10state.generatedContent.get Category.endo :=
  (c10_success_frame c10state "m" "c" "reg y x").1 Category.endo (by decide)
